import Mathlib

/-!
Verification of the keyword-argument parser `parse_kw_args` from
`panomena_general/utils.py` (the KeywordArgumentParser of the spec).

The embedding mirrors the Python 2 source line by line:

* `pySplit` models `str.split(sep)` for a one-character separator with no
  `maxsplit` bound: it splits on **every** occurrence of the separator and
  keeps empty pieces, so `"".split('=') == ['']` and
  `"x=a=b".split('=') == ['x', 'a', 'b']`.
* `pyFormat` models the `%`-formatting of the error-message strings: `%s`
  consumes one argument, `%%` is a literal percent, any other conversion
  character raises `ValueError` ("unsupported format character"), leftover
  arguments raise an error as well.  This matters because the format string
  on the restrict-rejection path of the source reads
  `"... must be one of % (got : '%s')"` - the `%` before the space has no
  conversion character, so evaluating it raises `ValueError` before the
  intended `TemplateSyntaxError` can be constructed.
* Dynamic values (a raw string, or e.g. an int produced by a transforming
  validator) are `PyVal`; validators (`None` / callable / regex pattern) are
  the tagged type `Validator`, where a pattern carries its source text (for
  the error message) and its matching function (the regex engine is external
  to this repository, so matching is abstracted to a `String → Bool`).
* Exceptions escaping `parse_kw_args` are `PyError`: `ValueError`
  (configuration error / formatting failure), `TemplateSyntaxError`
  (tag-argument errors) and `KeyError` (dict lookup failure).
-/

/-- A dynamic Python value appearing in a result pair: the raw string, or a
value produced by a transforming validator (an int for the spec's
`intTransform`). -/
inductive PyVal where
  | str (s : String)
  | int (n : Int)
deriving Repr, DecidableEq

/-- A validator from an `args_spec` dict: `None`, a callable (which may fail
with an exception message, or return a new value), or a regex pattern given
by its source text together with its matching function. -/
inductive Validator where
  | vnone : Validator
  | vcallable (f : String → Except String PyVal) : Validator
  | vpattern (re : String) (accepts : String → Bool) : Validator

/-- Exceptions that can escape `parse_kw_args`. -/
inductive PyError where
  | valueError (msg : String)
  | templateSyntaxError (msg : String)
  | keyError (key : String)
deriving Repr, DecidableEq

/-- `str.split(sep)` on a list of characters, for a single-character
separator: split at every occurrence, keeping empty pieces. -/
def pySplitCh (sep : Char) : List Char → List (List Char)
  | [] => [[]]
  | c :: rest =>
      if c = sep then [] :: pySplitCh sep rest
      else
        match pySplitCh sep rest with
        | [] => [[c]]
        | h :: t => (c :: h) :: t

/-- `s.split(sep)` for a one-character separator `sep` (Python semantics:
no maxsplit, empty pieces kept, `"".split(sep) == ['']`). -/
def pySplit (sep : Char) (s : String) : List String :=
  (pySplitCh sep s.data).map String.mk

/-- Characters CPython accepts between the `%` and the conversion character
of a format specifier: flags (`-+ #0`), a width (digits) and a precision
(`.`).  In particular a space after `%` is a valid *flag*, so it is consumed
silently and the complaint lands on the character after it. -/
def isFmtFlag (c : Char) : Bool :=
  c = '-' || c = '+' || c = ' ' || c = '#' || c = '0' || c = '.' || c.isDigit

/-- Python 2 `%`-formatting restricted to what the source uses: `%s`
conversions over string arguments.  The Bool is true while inside a `%...`
specifier (after the `%`, skipping flag/width/precision characters).  Any
unsupported conversion character raises `ValueError` (modelled as
`Except.error`, with the `at index ...` suffix of the CPython message
omitted), as do argument-count mismatches. -/
def pyFormatAux : Bool → List Char → List String → Except String String
  | false, [], [] => Except.ok ""
  | false, [], _ :: _ =>
      Except.error "not all arguments converted during string formatting"
  | false, c :: rest, args =>
      if c = '%' then pyFormatAux true rest args
      else Except.map (fun t => String.mk [c] ++ t) (pyFormatAux false rest args)
  | true, [], _ => Except.error "incomplete format"
  | true, c :: rest, args =>
      if isFmtFlag c then pyFormatAux true rest args
      else if c = 's' then
        match args with
        | [] => Except.error "not enough arguments for format string"
        | a :: args2 => Except.map (fun t => a ++ t) (pyFormatAux false rest args2)
      else if c = '%' then
        Except.map (fun t => "%" ++ t) (pyFormatAux false rest args)
      else
        Except.error ("unsupported format character \x27" ++ String.mk [c] ++
          "\x27 (0x" ++ String.mk (Nat.toDigits 16 c.toNat) ++ ")")

/-- `fmt % args` for a format string and a tuple of string arguments. -/
def pyFormat (fmt : String) (args : List String) : Except String String :=
  pyFormatAux false fmt.data args

/-- The message of the `ValueError` raised when `restrict` is set without an
`args_spec` (source line 124). -/
def cfgErrMsg : String :=
  "you must pass an args_spec dict if you want to restrict allowed args"

/-- Format string of the malformed-token error (source lines 134-137). -/
def fmtKeyVal : String :=
  "keyword arguments to \x27%s\x27 tag must have \x27key=value\x27 form (got : \x27%s\x27)"

/-- Format string of the restrict-rejection error (source lines 146-149).
Note the bare `% (` : the conversion character after the `%` is a space,
which `%`-formatting rejects with a `ValueError`. -/
def fmtRestrict : String :=
  "keyword arguments to \x27%s\x27 tag must be one of % (got : \x27%s\x27)"

/-- Format string of the failed-transform error (source lines 160-163).
The argument tuple of the source is `(tagname, name, val, e)`, so the tag
name lands in the first slot and the argument name in the second. -/
def fmtInvalid1 : String :=
  "invalid optional argument \x27%s\x27 for \x27%s\x27 tag: \x27%s\x27 (%s)"

/-- Format string of the pattern-mismatch error (source lines 167-170). -/
def fmtInvalid2 : String :=
  "invalid optional argument \x27%s\x27 for \x27%s\x27 tag: \x27%s\x27 (doesn\x27t match \x27%s\x27)"

/-- The result of `fmtKeyVal % (tagname, bit)`: the malformed-token message,
naming the tag and the offending token. -/
def msgKeyVal (tagname bit : String) : String :=
  "keyword arguments to \x27" ++ tagname ++
    "\x27 tag must have \x27key=value\x27 form (got : \x27" ++ bit ++ "\x27)"

/-- The result of `fmtInvalid1 % (tagname, name, val, e)`: the failed-transform
message.  Because of the argument order of the source, the tag name occupies
the first quoted slot and the argument name the second, but both appear. -/
def msgInvalid1 (tagname name val e : String) : String :=
  "invalid optional argument \x27" ++ tagname ++ "\x27 for \x27" ++ name ++
    "\x27 tag: \x27" ++ val ++ "\x27 (" ++ e ++ ")"

/-- The result of `fmtInvalid2 % (tagname, name, val, re)`: the
pattern-mismatch message, quoting the expected pattern. -/
def msgInvalid2 (tagname name val re : String) : String :=
  "invalid optional argument \x27" ++ tagname ++ "\x27 for \x27" ++ name ++
    "\x27 tag: \x27" ++ val ++ "\x27 (doesn\x27t match \x27" ++ re ++ "\x27)"

/-- The `ValueError` message produced when `%`-formatting `fmtRestrict`: the
`%` before `(got` consumes the space as a flag and then rejects `(` as a
conversion character, so the restrict-rejection message is never built. -/
def msgFmtRestrictCrash : String :=
  "unsupported format character \x27(\x27 (0x28)"

/-- `raise template.TemplateSyntaxError(fmt % args)`: formatting is evaluated
first, so a formatting failure escapes as a `ValueError` instead. -/
def raiseSynErr {α : Type} (fmt : String) (fargs : List String) : Except PyError α :=
  match pyFormat fmt fargs with
  | Except.ok m => Except.error (PyError.templateSyntaxError m)
  | Except.error em => Except.error (PyError.valueError em)

/-- Python dict lookup (`d.get(name)`-style, returning `none` when absent);
the spec dict is modelled as an association list whose keys are unique. -/
def dictGet (sp : List (String × Validator)) (name : String) : Option Validator :=
  match sp.find? (fun p => p.1 == name) with
  | some p => some p.2
  | none => none

/-- `if validate is not None: ...` (source lines 155-171): apply a validator
to the raw value — `None` keeps the value, a callable replaces it with its
result (wrapping a raised exception into a syntax error), a pattern keeps the
value on match and errors otherwise.  Returns the pair to append together
with the already-updated `allowed` list threaded through unchanged. -/
def applyValidator (tagname name val : String) (validate : Validator)
    (allowed2 : List String) : Except PyError (List String × (String × PyVal)) :=
  match validate with
  | Validator.vnone => Except.ok (allowed2, (name, PyVal.str val))
  | Validator.vcallable f =>
      match f val with
      | Except.ok v2 => Except.ok (allowed2, (name, v2))
      | Except.error e => raiseSynErr fmtInvalid1 [tagname, name, val, e]
  | Validator.vpattern reSrc accepts =>
      if accepts val then Except.ok (allowed2, (name, PyVal.str val))
      else raiseSynErr fmtInvalid2 [tagname, name, val, reSrc]

/-- The `if do_validate:` block of the loop body (source lines 140-171):
under `restrict`, check the name against the remaining `allowed` list and
delete it on success (line 144) or raise on failure (lines 146-149, where
building the message itself raises a `ValueError`); then look the validator
up (`args_spec[name]` under restrict, `args_spec.get(name, None)` otherwise)
and apply it. -/
def validateTok (tagname : String) (sp : List (String × Validator))
    (restrict : Bool) (allowed : List String) (name val : String) :
    Except PyError (List String × (String × PyVal)) :=
  match (if restrict then
           if allowed.contains name then Except.ok (allowed.erase name)
           else raiseSynErr fmtRestrict
                  [tagname, String.intercalate "," allowed, name]
         else Except.ok allowed : Except PyError (List String)) with
  | Except.error e => Except.error e
  | Except.ok allowed2 =>
      match (if restrict then dictGet sp name
             else some ((dictGet sp name).getD Validator.vnone)) with
      | none => Except.error (PyError.keyError name)
      | some validate => applyValidator tagname name val validate allowed2

/-- One iteration of the `for bit in bits` loop of `parse_kw_args` (source
lines 130-173): split the token on every `=` and unpack into `name, val`
(raising the malformed-token error when the split does not have exactly two
pieces), then run the validation block when it is active.  Returns the
updated `allowed` list and the `(name, value)` pair to append. -/
def processBit (tagname : String) (sp : List (String × Validator))
    (do_validate restrict : Bool) (allowed : List String) (bit : String) :
    Except PyError (List String × (String × PyVal)) :=
  match pySplit '=' bit with
  | [name, val] =>
      if do_validate then validateTok tagname sp restrict allowed name val
      else Except.ok (allowed, (name, PyVal.str val))
  | _ =>
      raiseSynErr fmtKeyVal [tagname, bit]

/-- The `for bit in bits` loop, threading the mutable `allowed` list and
accumulating the `args` result in order. -/
def goBits (tagname : String) (sp : List (String × Validator))
    (do_validate restrict : Bool) :
    List String → List String → Except PyError (List String × List (String × PyVal))
  | allowed, [] => Except.ok (allowed, [])
  | allowed, bit :: rest =>
      match processBit tagname sp do_validate restrict allowed bit with
      | Except.error e => Except.error e
      | Except.ok (allowed2, pair) =>
          match goBits tagname sp do_validate restrict allowed2 rest with
          | Except.error e => Except.error e
          | Except.ok (allowedF, pairs) => Except.ok (allowedF, pair :: pairs)

/-- `parse_kw_args(tagname, bits, args_spec=None, restrict=False)` (source
lines 89-175): the keyword-argument parser for template tags.  Returns the
ordered list of `(name, value)` pairs, or the exception the source raises. -/
def parse_kw_args (tagname : String) (bits : List String)
    (args_spec : Option (List (String × Validator))) (restrict : Bool) :
    Except PyError (List (String × PyVal)) :=
  if restrict then
    match args_spec with
    | none => Except.error (PyError.valueError cfgErrMsg)
    | some sp =>
        Except.map Prod.snd (goBits tagname sp true true (sp.map Prod.fst) bits)
  else
    match args_spec with
    | none => Except.map Prod.snd (goBits tagname [] false false [] bits)
    | some sp => Except.map Prod.snd (goBits tagname sp true false [] bits)

/-- Example transforming validator: the spec's `intTransform` (Python's
`int` applied to the raw value) — accepts a non-empty all-digit string and
returns the decimal integer it denotes, raises on non-numeric input with the
CPython `int()` message. -/
def pyIntV (s : String) : Except String PyVal :=
  if s.data ≠ [] ∧ s.data.all Char.isDigit then
    Except.ok (PyVal.int (s.data.foldl (fun n c => n * 10 + ((c.toNat : Int) - 48)) 0))
  else
    Except.error ("invalid literal for int() with base 10: \x27" ++ s ++ "\x27")

/-- The value a validator turns a raw value into when it accepts it, `none`
when it rejects: `None` keeps the raw string, a callable returns its result,
a pattern keeps the raw string when it matches.  (A verification-side
abbreviation used to state success conditions, not code of the source.) -/
def valOutput : Validator → String → Option PyVal
  | Validator.vnone, v => some (PyVal.str v)
  | Validator.vcallable f, v =>
      match f v with
      | Except.ok o => some o
      | Except.error _ => none
  | Validator.vpattern _ m, v => if m v then some (PyVal.str v) else none

/-! ### Helper lemmas about the embedded primitives -/

theorem exceptMap_map {ε α β γ : Type} (f : β → γ) (g : α → β) (x : Except ε α) :
    Except.map f (Except.map g x) = Except.map (fun a => f (g a)) x := by
  cases x <;> rfl

theorem strMk_data (s : String) : String.mk s.data = s := rfl

theorem pySplitCh_not_mem (sep : Char) :
    ∀ l : List Char, sep ∉ l → pySplitCh sep l = [l]
  | [], _ => rfl
  | c :: rest, h => by
      have hc : ¬ c = sep := fun e => h (e ▸ List.mem_cons_self c rest)
      have hr : sep ∉ rest := fun hm => h (List.mem_cons_of_mem _ hm)
      unfold pySplitCh
      rw [if_neg hc, pySplitCh_not_mem sep rest hr]

theorem pySplitCh_pair (sep : Char) :
    ∀ l1 l2 : List Char, sep ∉ l1 → sep ∉ l2 →
      pySplitCh sep (l1 ++ sep :: l2) = [l1, l2]
  | [], l2, _, h2 => by
      rw [List.nil_append]
      unfold pySplitCh
      rw [if_pos rfl, pySplitCh_not_mem sep l2 h2]
  | c :: rest, l2, h1, h2 => by
      have hc : ¬ c = sep := fun e => h1 (e ▸ List.mem_cons_self c rest)
      have hr : sep ∉ rest := fun hm => h1 (List.mem_cons_of_mem _ hm)
      rw [List.cons_append]
      unfold pySplitCh
      rw [if_neg hc, pySplitCh_pair sep rest l2 hr h2]

theorem pySplit_single (b : String) (h : '=' ∉ b.data) : pySplit '=' b = [b] := by
  unfold pySplit
  rw [pySplitCh_not_mem '=' b.data h]
  simp [strMk_data]

theorem pySplit_pair (n v : String) (hn : '=' ∉ n.data) (hv : '=' ∉ v.data) :
    pySplit '=' (n ++ "=" ++ v) = [n, v] := by
  unfold pySplit
  have hd : (n ++ "=" ++ v).data = n.data ++ '=' :: v.data := by
    simp [String.data_append]
  rw [hd, pySplitCh_pair '=' n.data v.data hn hv]
  simp [strMk_data]

theorem exceptMap_ok {ε α β : Type} (f : α → β) (a : α) :
    Except.map f (Except.ok a : Except ε α) = Except.ok (f a) := rfl

theorem exceptMap_error {ε α β : Type} (f : α → β) (e : ε) :
    Except.map f (Except.error e : Except ε α) = (Except.error e : Except ε β) := rfl

theorem strMk_nil_append (t : String) : String.mk [] ++ t = t := by
  apply String.ext
  simp [String.data_append]

theorem strMk_cons_append (c : Char) (l : List Char) (t : String) :
    String.mk (c :: l) ++ t = String.mk [c] ++ (String.mk l ++ t) := by
  apply String.ext
  simp [String.data_append]

theorem pyFormatAux_false_cons (c : Char) (rest : List Char) (args : List String) :
    pyFormatAux false (c :: rest) args =
      if c = '%' then pyFormatAux true rest args
      else Except.map (fun t => String.mk [c] ++ t) (pyFormatAux false rest args) := rfl

theorem pyFormatAux_true_cons (c : Char) (rest : List Char) (args : List String) :
    pyFormatAux true (c :: rest) args =
      if isFmtFlag c then pyFormatAux true rest args
      else if c = 's' then
        match args with
        | [] => Except.error "not enough arguments for format string"
        | a :: args2 => Except.map (fun t => a ++ t) (pyFormatAux false rest args2)
      else if c = '%' then
        Except.map (fun t => "%" ++ t) (pyFormatAux false rest args)
      else
        Except.error ("unsupported format character \x27" ++ String.mk [c] ++
          "\x27 (0x" ++ String.mk (Nat.toDigits 16 c.toNat) ++ ")") := rfl

theorem pyFormatAux_lit :
    ∀ (l : List Char), '%' ∉ l → ∀ (rest : List Char) (args : List String),
      pyFormatAux false (l ++ rest) args =
        Except.map (fun t => String.mk l ++ t) (pyFormatAux false rest args)
  | [], _, rest, args => by
      rw [List.nil_append]
      cases pyFormatAux false rest args with
      | ok t => rw [exceptMap_ok, strMk_nil_append]
      | error e => rw [exceptMap_error]
  | c :: l2, h, rest, args => by
      have hc : ¬ c = '%' := fun e => h (e ▸ List.mem_cons_self c l2)
      have hl : '%' ∉ l2 := fun hm => h (List.mem_cons_of_mem _ hm)
      rw [List.cons_append, pyFormatAux_false_cons, if_neg hc,
          pyFormatAux_lit l2 hl rest args, exceptMap_map]
      cases pyFormatAux false rest args with
      | ok t => rw [exceptMap_ok, exceptMap_ok, ← strMk_cons_append]
      | error e => rw [exceptMap_error, exceptMap_error]

theorem pyFormatAux_s (rest : List Char) (a : String) (args : List String) :
    pyFormatAux false ('%' :: 's' :: rest) (a :: args) =
      Except.map (fun t => a ++ t) (pyFormatAux false rest args) := by
  rw [pyFormatAux_false_cons, if_pos rfl, pyFormatAux_true_cons,
      if_neg (by decide), if_pos rfl]

theorem pyFormat_keyVal (a b : String) :
    pyFormat fmtKeyVal [a, b] = Except.ok (msgKeyVal a b) := by
  have hd : fmtKeyVal.data =
      ("keyword arguments to \x27").data ++ '%' :: 's' ::
        (("\x27 tag must have \x27key=value\x27 form (got : \x27").data ++ '%' :: 's' ::
          ("\x27)").data) := by decide
  have h0 : pyFormatAux false ("\x27)").data [] = Except.ok "\x27)" := by rfl
  show pyFormatAux false fmtKeyVal.data [a, b] = _
  rw [hd, pyFormatAux_lit _ (by decide), pyFormatAux_s,
      pyFormatAux_lit _ (by decide), pyFormatAux_s, h0,
      exceptMap_ok, exceptMap_ok, exceptMap_ok, exceptMap_ok]
  congr 1
  apply String.ext
  simp [msgKeyVal, String.data_append]

theorem pyFormat_invalid1 (a b c d : String) :
    pyFormat fmtInvalid1 [a, b, c, d] = Except.ok (msgInvalid1 a b c d) := by
  have hd : fmtInvalid1.data =
      ("invalid optional argument \x27").data ++ '%' :: 's' ::
        (("\x27 for \x27").data ++ '%' :: 's' ::
          (("\x27 tag: \x27").data ++ '%' :: 's' ::
            (("\x27 (").data ++ '%' :: 's' :: (")").data))) := by decide
  have h0 : pyFormatAux false (")").data [] = Except.ok ")" := by rfl
  show pyFormatAux false fmtInvalid1.data [a, b, c, d] = _
  rw [hd, pyFormatAux_lit _ (by decide), pyFormatAux_s,
      pyFormatAux_lit _ (by decide), pyFormatAux_s,
      pyFormatAux_lit _ (by decide), pyFormatAux_s,
      pyFormatAux_lit _ (by decide), pyFormatAux_s, h0,
      exceptMap_ok, exceptMap_ok, exceptMap_ok, exceptMap_ok,
      exceptMap_ok, exceptMap_ok, exceptMap_ok, exceptMap_ok]
  congr 1
  apply String.ext
  simp [msgInvalid1, String.data_append]

theorem pyFormat_invalid2 (a b c d : String) :
    pyFormat fmtInvalid2 [a, b, c, d] = Except.ok (msgInvalid2 a b c d) := by
  have hd : fmtInvalid2.data =
      ("invalid optional argument \x27").data ++ '%' :: 's' ::
        (("\x27 for \x27").data ++ '%' :: 's' ::
          (("\x27 tag: \x27").data ++ '%' :: 's' ::
            (("\x27 (doesn\x27t match \x27").data ++ '%' :: 's' ::
              ("\x27)").data))) := by decide
  have h0 : pyFormatAux false ("\x27)").data [] = Except.ok "\x27)" := by rfl
  show pyFormatAux false fmtInvalid2.data [a, b, c, d] = _
  rw [hd, pyFormatAux_lit _ (by decide), pyFormatAux_s,
      pyFormatAux_lit _ (by decide), pyFormatAux_s,
      pyFormatAux_lit _ (by decide), pyFormatAux_s,
      pyFormatAux_lit _ (by decide), pyFormatAux_s, h0,
      exceptMap_ok, exceptMap_ok, exceptMap_ok, exceptMap_ok,
      exceptMap_ok, exceptMap_ok, exceptMap_ok, exceptMap_ok]
  congr 1
  apply String.ext
  simp [msgInvalid2, String.data_append]

theorem pyFormat_restrict_crash (a : String) (args : List String) :
    pyFormat fmtRestrict (a :: args) = Except.error msgFmtRestrictCrash := by
  have hd : fmtRestrict.data =
      ("keyword arguments to \x27").data ++ '%' :: 's' ::
        (("\x27 tag must be one of ").data ++ '%' :: ' ' :: '(' ::
          ("got : \x27%s\x27)").data) := by decide
  have hcrash : pyFormatAux false ('%' :: ' ' :: '(' :: ("got : \x27%s\x27)").data) args =
      Except.error msgFmtRestrictCrash := by
    rw [pyFormatAux_false_cons, if_pos rfl, pyFormatAux_true_cons, if_pos (by decide),
        pyFormatAux_true_cons, if_neg (by decide), if_neg (by decide), if_neg (by decide)]
    apply congrArg Except.error
    apply String.ext
    decide
  show pyFormatAux false fmtRestrict.data (a :: args) = _
  rw [hd, pyFormatAux_lit _ (by decide), pyFormatAux_s, pyFormatAux_lit _ (by decide),
      hcrash, exceptMap_error, exceptMap_error, exceptMap_error]

/-! ### Lemmas about `raiseSynErr`, `processBit` and the loop -/

theorem raiseSynErr_keyVal {α : Type} (tag bit : String) :
    (raiseSynErr fmtKeyVal [tag, bit] : Except PyError α) =
      Except.error (PyError.templateSyntaxError (msgKeyVal tag bit)) := by
  unfold raiseSynErr
  rw [pyFormat_keyVal]

theorem raiseSynErr_invalid1 {α : Type} (a b c d : String) :
    (raiseSynErr fmtInvalid1 [a, b, c, d] : Except PyError α) =
      Except.error (PyError.templateSyntaxError (msgInvalid1 a b c d)) := by
  unfold raiseSynErr
  rw [pyFormat_invalid1]

theorem raiseSynErr_invalid2 {α : Type} (a b c d : String) :
    (raiseSynErr fmtInvalid2 [a, b, c, d] : Except PyError α) =
      Except.error (PyError.templateSyntaxError (msgInvalid2 a b c d)) := by
  unfold raiseSynErr
  rw [pyFormat_invalid2]

theorem raiseSynErr_restrict {α : Type} (a : String) (args : List String) :
    (raiseSynErr fmtRestrict (a :: args) : Except PyError α) =
      Except.error (PyError.valueError msgFmtRestrictCrash) := by
  unfold raiseSynErr
  rw [pyFormat_restrict_crash]

theorem processBit_not_pair (tag : String) (sp : List (String × Validator))
    (dv r : Bool) (allowed : List String) (bit : String)
    (h : (pySplit '=' bit).length ≠ 2) :
    processBit tag sp dv r allowed bit =
      Except.error (PyError.templateSyntaxError (msgKeyVal tag bit)) := by
  unfold processBit
  cases hs : pySplit '=' bit with
  | nil => exact raiseSynErr_keyVal tag bit
  | cons n t =>
      cases t with
      | nil => exact raiseSynErr_keyVal tag bit
      | cons v t2 =>
          cases t2 with
          | nil => exact absurd (by rw [hs]; rfl) h
          | cons w t3 => exact raiseSynErr_keyVal tag bit

theorem processBit_noval_split (tag : String) (sp : List (String × Validator))
    (allowed : List String) (bit n v : String)
    (hs : pySplit '=' bit = [n, v]) :
    processBit tag sp false false allowed bit =
      Except.ok (allowed, (n, PyVal.str v)) := by
  unfold processBit
  rw [hs]
  rfl

theorem dictGet_cons_self (n : String) (valr : Validator)
    (sp : List (String × Validator)) :
    dictGet ((n, valr) :: sp) n = some valr := by
  unfold dictGet
  simp

theorem applyValidator_vnone (tag n v : String) (al : List String) :
    applyValidator tag n v Validator.vnone al =
      Except.ok (al, (n, PyVal.str v)) := rfl

theorem applyValidator_callable (tag n v : String) (f : String → Except String PyVal)
    (al : List String) :
    applyValidator tag n v (Validator.vcallable f) al =
      (match f v with
       | Except.ok v2 => Except.ok (al, (n, v2))
       | Except.error e => raiseSynErr fmtInvalid1 [tag, n, v, e]) := rfl

theorem applyValidator_pattern (tag n v reSrc : String) (m : String → Bool)
    (al : List String) :
    applyValidator tag n v (Validator.vpattern reSrc m) al =
      (if m v then Except.ok (al, (n, PyVal.str v))
       else raiseSynErr fmtInvalid2 [tag, n, v, reSrc]) := rfl

theorem validateTok_nonrestrict (tag : String) (sp : List (String × Validator))
    (allowed : List String) (n v : String) :
    validateTok tag sp false allowed n v =
      applyValidator tag n v ((dictGet sp n).getD Validator.vnone) allowed := rfl

theorem validateTok_restrict_mem (tag : String) (sp : List (String × Validator))
    (allowed : List String) (n v : String)
    (hmem : allowed.contains n = true) :
    validateTok tag sp true allowed n v =
      (match dictGet sp n with
       | none => Except.error (PyError.keyError n)
       | some validate => applyValidator tag n v validate (allowed.erase n)) := by
  unfold validateTok
  rw [hmem]
  rfl

theorem validateTok_restrict_notmem (tag : String) (sp : List (String × Validator))
    (allowed : List String) (n v : String)
    (hmem : allowed.contains n = false) :
    validateTok tag sp true allowed n v =
      Except.error (PyError.valueError msgFmtRestrictCrash) := by
  unfold validateTok
  rw [hmem, raiseSynErr_restrict]
  rfl

theorem processBit_pair_validate (tag : String) (sp : List (String × Validator))
    (restrict : Bool) (allowed : List String) (n v : String)
    (hn : '=' ∉ n.data) (hv : '=' ∉ v.data) :
    processBit tag sp true restrict allowed (n ++ "=" ++ v) =
      validateTok tag sp restrict allowed n v := by
  unfold processBit
  rw [pySplit_pair n v hn hv]
  rfl

theorem processBit_callable_ok (tag : String) (sp : List (String × Validator))
    (allowed : List String) (n v : String) (f : String → Except String PyVal)
    (out : PyVal) (hn : '=' ∉ n.data) (hv : '=' ∉ v.data)
    (hl : dictGet sp n = some (Validator.vcallable f))
    (hf : f v = Except.ok out) :
    processBit tag sp true false allowed (n ++ "=" ++ v) =
      Except.ok (allowed, (n, out)) := by
  rw [processBit_pair_validate tag sp false allowed n v hn hv,
      validateTok_nonrestrict, hl, Option.getD_some, applyValidator_callable, hf]

theorem processBit_callable_err (tag : String) (sp : List (String × Validator))
    (allowed : List String) (n v : String) (f : String → Except String PyVal)
    (e : String) (hn : '=' ∉ n.data) (hv : '=' ∉ v.data)
    (hl : dictGet sp n = some (Validator.vcallable f))
    (hf : f v = Except.error e) :
    processBit tag sp true false allowed (n ++ "=" ++ v) =
      Except.error (PyError.templateSyntaxError (msgInvalid1 tag n v e)) := by
  rw [processBit_pair_validate tag sp false allowed n v hn hv,
      validateTok_nonrestrict, hl, Option.getD_some, applyValidator_callable, hf]
  exact raiseSynErr_invalid1 tag n v e

theorem processBit_pattern_ok (tag : String) (sp : List (String × Validator))
    (allowed : List String) (n v reSrc : String) (m : String → Bool)
    (hn : '=' ∉ n.data) (hv : '=' ∉ v.data)
    (hl : dictGet sp n = some (Validator.vpattern reSrc m))
    (hm : m v = true) :
    processBit tag sp true false allowed (n ++ "=" ++ v) =
      Except.ok (allowed, (n, PyVal.str v)) := by
  rw [processBit_pair_validate tag sp false allowed n v hn hv,
      validateTok_nonrestrict, hl, Option.getD_some, applyValidator_pattern, hm,
      if_pos rfl]

theorem processBit_pattern_err (tag : String) (sp : List (String × Validator))
    (allowed : List String) (n v reSrc : String) (m : String → Bool)
    (hn : '=' ∉ n.data) (hv : '=' ∉ v.data)
    (hl : dictGet sp n = some (Validator.vpattern reSrc m))
    (hm : m v = false) :
    processBit tag sp true false allowed (n ++ "=" ++ v) =
      Except.error (PyError.templateSyntaxError (msgInvalid2 tag n v reSrc)) := by
  rw [processBit_pair_validate tag sp false allowed n v hn hv,
      validateTok_nonrestrict, hl, Option.getD_some, applyValidator_pattern, hm]
  exact raiseSynErr_invalid2 tag n v reSrc

theorem processBit_restrict_ok (tag : String) (sp : List (String × Validator))
    (allowed : List String) (n v : String) (valr : Validator) (out : PyVal)
    (hn : '=' ∉ n.data) (hv : '=' ∉ v.data)
    (hmem : allowed.contains n = true)
    (hl : dictGet sp n = some valr)
    (hout : valOutput valr v = some out) :
    processBit tag sp true true allowed (n ++ "=" ++ v) =
      Except.ok (allowed.erase n, (n, out)) := by
  rw [processBit_pair_validate tag sp true allowed n v hn hv,
      validateTok_restrict_mem tag sp allowed n v hmem, hl]
  cases valr with
  | vnone =>
      simp only [valOutput, Option.some_inj] at hout
      show applyValidator tag n v Validator.vnone (allowed.erase n) =
        Except.ok (allowed.erase n, (n, out))
      rw [applyValidator_vnone, hout]
  | vcallable f =>
      simp only [valOutput] at hout
      show applyValidator tag n v (Validator.vcallable f) (allowed.erase n) =
        Except.ok (allowed.erase n, (n, out))
      rw [applyValidator_callable]
      cases hfv : f v with
      | ok o =>
          rw [hfv] at hout
          simp only [Option.some_inj] at hout
          rw [hout]
      | error e =>
          rw [hfv] at hout
          exact absurd hout (by simp)
  | vpattern reSrc m =>
      simp only [valOutput] at hout
      show applyValidator tag n v (Validator.vpattern reSrc m) (allowed.erase n) =
        Except.ok (allowed.erase n, (n, out))
      rw [applyValidator_pattern]
      cases hmv : m v with
      | true =>
          rw [hmv, if_pos rfl] at hout
          simp only [Option.some_inj] at hout
          rw [hout]
          rfl
      | false =>
          rw [hmv] at hout
          exact absurd hout (by simp)

theorem goBits_nil (tag : String) (sp : List (String × Validator)) (dv r : Bool)
    (allowed : List String) :
    goBits tag sp dv r allowed [] = Except.ok (allowed, []) := rfl

theorem goBits_cons (tag : String) (sp : List (String × Validator)) (dv r : Bool)
    (allowed : List String) (bit : String) (rest : List String) :
    goBits tag sp dv r allowed (bit :: rest) =
      (match processBit tag sp dv r allowed bit with
       | Except.error e => Except.error e
       | Except.ok (allowed2, pair) =>
           match goBits tag sp dv r allowed2 rest with
           | Except.error e => Except.error e
           | Except.ok (allowedF, pairs) => Except.ok (allowedF, pair :: pairs)) := rfl

theorem goBits_append (tag : String) (sp : List (String × Validator)) (dv r : Bool) :
    ∀ (xs : List String) (allowed : List String) (ys : List String),
      goBits tag sp dv r allowed (xs ++ ys) =
        (match goBits tag sp dv r allowed xs with
         | Except.error e => Except.error e
         | Except.ok (al2, ps) =>
             match goBits tag sp dv r al2 ys with
             | Except.error e => Except.error e
             | Except.ok (al3, qs) => Except.ok (al3, ps ++ qs))
  | [], allowed, ys => by
      rw [List.nil_append, goBits_nil]
      dsimp only
      cases goBits tag sp dv r allowed ys with
      | error e => rfl
      | ok res =>
          cases res with
          | mk al3 qs =>
              dsimp only
              rw [List.nil_append]
  | x :: xs, allowed, ys => by
      rw [List.cons_append, goBits_cons, goBits_cons]
      cases processBit tag sp dv r allowed x with
      | error e => rfl
      | ok res =>
          cases res with
          | mk al2 pair =>
              dsimp only
              rw [goBits_append tag sp dv r xs al2 ys]
              cases goBits tag sp dv r al2 xs with
              | error e => rfl
              | ok res2 =>
                  cases res2 with
                  | mk al3 ps =>
                      dsimp only
                      cases goBits tag sp dv r al3 ys with
                      | error e => rfl
                      | ok res3 =>
                          cases res3 with
                          | mk al4 qs =>
                              dsimp only
                              rw [List.cons_append]

theorem parse_nonrestrict_none (tag : String) (bits : List String) :
    parse_kw_args tag bits none false =
      Except.map Prod.snd (goBits tag [] false false [] bits) := rfl

theorem parse_nonrestrict_some (tag : String) (bits : List String)
    (sp : List (String × Validator)) :
    parse_kw_args tag bits (some sp) false =
      Except.map Prod.snd (goBits tag sp true false [] bits) := rfl

theorem parse_restrict_some (tag : String) (bits : List String)
    (sp : List (String × Validator)) :
    parse_kw_args tag bits (some sp) true =
      Except.map Prod.snd (goBits tag sp true true (sp.map Prod.fst) bits) := rfl

theorem goBits_noval (tag : String) :
    ∀ (pairs : List (String × String)) (allowed : List String),
      (∀ p ∈ pairs, '=' ∉ p.1.data ∧ '=' ∉ p.2.data) →
      goBits tag [] false false allowed (pairs.map fun p => p.1 ++ "=" ++ p.2) =
        Except.ok (allowed, pairs.map fun p => (p.1, PyVal.str p.2))
  | [], allowed, _ => rfl
  | p :: pairs, allowed, h => by
      have hp := h p (List.mem_cons_self p pairs)
      have hrest : ∀ q ∈ pairs, '=' ∉ q.1.data ∧ '=' ∉ q.2.data :=
        fun q hq => h q (List.mem_cons_of_mem _ hq)
      rw [List.map_cons, goBits_cons,
          processBit_noval_split tag [] allowed (p.1 ++ "=" ++ p.2) p.1 p.2
            (pySplit_pair p.1 p.2 hp.1 hp.2)]
      dsimp only
      rw [goBits_noval tag pairs allowed hrest]
      dsimp only
      rw [List.map_cons]

theorem dictGet_some_mem (sp : List (String × Validator)) (n : String)
    (valr : Validator) (h : dictGet sp n = some valr) : n ∈ sp.map Prod.fst := by
  unfold dictGet at h
  cases hf : List.find? (fun p => p.1 == n) sp with
  | none => rw [hf] at h; exact absurd h (by simp)
  | some p =>
      have hmem := List.mem_of_find?_eq_some hf
      have hbeq := List.find?_some hf
      have hpn : p.1 = n := eq_of_beq hbeq
      exact hpn ▸ List.mem_map_of_mem Prod.fst hmem

theorem goBits_restrict_ok (tag : String) (sp : List (String × Validator)) :
    ∀ (pairs : List (String × String)) (allowed : List String),
      (pairs.map Prod.fst).Nodup →
      (∀ p ∈ pairs, p.1 ∈ allowed) →
      (∀ p ∈ pairs, '=' ∉ p.1.data ∧ '=' ∉ p.2.data ∧
        ∃ valr out, dictGet sp p.1 = some valr ∧ valOutput valr p.2 = some out) →
      ∃ alF res, goBits tag sp true true allowed
        (pairs.map fun p => p.1 ++ "=" ++ p.2) = Except.ok (alF, res)
  | [], allowed, _, _, _ => ⟨allowed, [], rfl⟩
  | p :: pairs, allowed, hnd, hmem, h => by
      obtain ⟨hn, hv, valr, out, hl, hout⟩ := h p (List.mem_cons_self p pairs)
      have hcont : allowed.contains p.1 = true :=
        List.elem_iff.mpr (hmem p (List.mem_cons_self p pairs))
      have hnd2 : (pairs.map Prod.fst).Nodup := (List.nodup_cons.mp hnd).2
      have hp1 : p.1 ∉ pairs.map Prod.fst := (List.nodup_cons.mp hnd).1
      have hmem2 : ∀ q ∈ pairs, q.1 ∈ allowed.erase p.1 := by
        intro q hq
        have hqa := hmem q (List.mem_cons_of_mem _ hq)
        have hne : q.1 ≠ p.1 := by
          intro he
          exact hp1 (he ▸ List.mem_map_of_mem Prod.fst hq)
        exact (List.mem_erase_of_ne hne).mpr hqa
      have h2 : ∀ q ∈ pairs, '=' ∉ q.1.data ∧ '=' ∉ q.2.data ∧
          ∃ valr out, dictGet sp q.1 = some valr ∧ valOutput valr q.2 = some out :=
        fun q hq => h q (List.mem_cons_of_mem _ hq)
      obtain ⟨alF, res, hrec⟩ :=
        goBits_restrict_ok tag sp pairs (allowed.erase p.1) hnd2 hmem2 h2
      refine ⟨alF, (p.1, out) :: res, ?_⟩
      rw [List.map_cons, goBits_cons,
          processBit_restrict_ok tag sp allowed p.1 p.2 valr out hn hv hcont hl hout]
      dsimp only
      rw [hrec]

theorem parse_core_extend (tag : String) (sp : List (String × Validator))
    (dv r : Bool) (al0 : List String) (pre : List String) (b : String)
    (post : List String) (res : List (String × PyVal))
    (hres : Except.map Prod.snd (goBits tag sp dv r al0 pre) = Except.ok res)
    (hlen : (pySplit '=' b).length ≠ 2) :
    Except.map Prod.snd (goBits tag sp dv r al0 (pre ++ b :: post)) =
      Except.error (PyError.templateSyntaxError (msgKeyVal tag b)) := by
  rw [goBits_append]
  cases hgo : goBits tag sp dv r al0 pre with
  | error e =>
      rw [hgo, exceptMap_error] at hres
      exact Except.noConfusion hres
  | ok res2 =>
      cases res2 with
      | mk al ps =>
          dsimp only
          rw [goBits_cons, processBit_not_pair tag sp dv r al b hlen]
          rfl

/-! ### The claims -/

/-- C1 (counterexample): the token `"x=a=b"` does **not** parse to the pair
`("x", "a=b")`; because `split('=')` splits on every `=`, the three-piece
unpacking raises, and the parse fails with the malformed-token syntax
error. -/
theorem C1_counterexample_multi_eq_token_fails :
    parse_kw_args "t" ["x=a=b"] none false =
      Except.error (PyError.templateSyntaxError (msgKeyVal "t" "x=a=b")) := rfl

/-- C1 (amended): a token is split into name and value exactly when
`split('=')` yields exactly two pieces, i.e. when the token contains exactly
one `=`; a token with zero or with two or more `=` characters fails with the
syntax error naming the tag and the token. -/
theorem C1_amended_split_exactly_one_eq (tag t : String) :
    (∀ n v, pySplit '=' t = [n, v] →
      parse_kw_args tag [t] none false = Except.ok [(n, PyVal.str v)]) ∧
    ((pySplit '=' t).length ≠ 2 →
      parse_kw_args tag [t] none false =
        Except.error (PyError.templateSyntaxError (msgKeyVal tag t))) := by
  constructor
  · intro n v hs
    rw [parse_nonrestrict_none, goBits_cons, processBit_noval_split tag [] [] t n v hs]
    dsimp only
    rw [goBits_nil]
    rfl
  · intro hlen
    rw [parse_nonrestrict_none, goBits_cons,
        processBit_not_pair tag [] false false [] t hlen]
    rfl

/-- C1 (witness): `"a=b"` parses to `("a", "b")` and `"xab"` fails with the
malformed-token error. -/
theorem C1_amended_witness :
    parse_kw_args "t" ["a=b"] none false = Except.ok [("a", PyVal.str "b")] ∧
    parse_kw_args "t" ["xab"] none false =
      Except.error (PyError.templateSyntaxError (msgKeyVal "t" "xab")) :=
  ⟨(C1_amended_split_exactly_one_eq "t" "a=b").1 "a" "b" rfl,
   (C1_amended_split_exactly_one_eq "t" "xab").2 (by decide)⟩

/-- C2 (code bug): with `restrict=True`, `args_spec={"a": None}` and token
`"c=1"`, the source *attempts* to raise the syntax error listing the allowed
names, but the format string `"... must be one of % (got : '%s')"` is
missing the conversion character after `%`, so evaluating `fmt % args`
raises `ValueError: unsupported format character` instead — the parse fails
with the wrong exception and without listing the allowed names. -/
theorem C2_restrict_rejection_raises_format_valueError :
    parse_kw_args "t" ["c=1"] (some [("a", Validator.vnone)]) true =
      Except.error (PyError.valueError msgFmtRestrictCrash) := rfl

/-- C3: with no `args_spec` and `restrict=False`, any list of well-formed
`name=value` tokens (each side free of `=`) with pairwise-distinct names
parses successfully to the `(name, value)` pairs in input order, with every
value kept verbatim. -/
theorem C3_valid_tokens_parse_in_order (tag : String)
    (pairs : List (String × String))
    (hnd : (pairs.map Prod.fst).Nodup)
    (hch : ∀ p ∈ pairs, '=' ∉ p.1.data ∧ '=' ∉ p.2.data) :
    parse_kw_args tag (pairs.map fun p => p.1 ++ "=" ++ p.2) none false =
      Except.ok (pairs.map fun p => (p.1, PyVal.str p.2)) := by
  rw [parse_nonrestrict_none, goBits_noval tag pairs [] hch, exceptMap_ok]

/-- C3 (witness): `["a=1", "b=2"]` parses to
`[("a", "1"), ("b", "2")]` in order. -/
theorem C3_witness :
    parse_kw_args "t" ["a=1", "b=2"] none false =
      Except.ok [("a", PyVal.str "1"), ("b", PyVal.str "2")] :=
  C3_valid_tokens_parse_in_order "t" [("a", "1"), ("b", "2")]
    (by decide) (by decide)

/-- C4: `restrict=True` without an `args_spec` always raises the
configuration `ValueError` (source line 124), whatever the token list —
including the empty one — since the check precedes the token loop. -/
theorem C4_restrict_without_spec_fails (tag : String) (bits : List String) :
    parse_kw_args tag bits none true =
      Except.error (PyError.valueError cfgErrMsg) := rfl

/-- C5 (counterexample): the claim quantifies over *all* `argSpec` and
`restrict` settings, but with `restrict=True` and no `args_spec` a token
list containing the `=`-less token `"abc"` fails with the configuration
`ValueError`, not with a syntax error naming the tag and the token. -/
theorem C5_counterexample_config_error_first :
    parse_kw_args "t" ["abc"] none true =
      Except.error (PyError.valueError cfgErrMsg) := rfl

/-- C5 (amended): whenever the tokens before an `=`-less token parse
successfully (which rules out the restrict-without-spec configuration and
earlier failing tokens), the parse of the full list fails with the
malformed-token syntax error naming the tag and that token, whatever
follows it. -/
theorem C5_amended_token_without_eq_fails (tag : String)
    (spec : Option (List (String × Validator))) (restrict : Bool)
    (pre post : List String) (b : String)
    (hpre : ∃ res, parse_kw_args tag pre spec restrict = Except.ok res)
    (hb : '=' ∉ b.data) :
    parse_kw_args tag (pre ++ b :: post) spec restrict =
      Except.error (PyError.templateSyntaxError (msgKeyVal tag b)) := by
  obtain ⟨res, hres⟩ := hpre
  have hlen : (pySplit '=' b).length ≠ 2 := by
    rw [pySplit_single b hb]
    simp
  cases restrict with
  | true =>
      cases spec with
      | none =>
          have hcfg : parse_kw_args tag pre none true =
              Except.error (PyError.valueError cfgErrMsg) := rfl
          rw [hcfg] at hres
          exact Except.noConfusion hres
      | some sp =>
          rw [parse_restrict_some] at hres
          rw [parse_restrict_some]
          exact parse_core_extend tag sp true true (sp.map Prod.fst)
            pre b post res hres hlen
  | false =>
      cases spec with
      | none =>
          rw [parse_nonrestrict_none] at hres
          rw [parse_nonrestrict_none]
          exact parse_core_extend tag [] false false [] pre b post res hres hlen
      | some sp =>
          rw [parse_nonrestrict_some] at hres
          rw [parse_nonrestrict_some]
          exact parse_core_extend tag sp true false [] pre b post res hres hlen

/-- C5 (witness): after the successfully parsed prefix `["a=1"]`, the
`=`-less token `"abc"` makes the parse fail with the malformed-token
error. -/
theorem C5_amended_witness :
    parse_kw_args "t" ["a=1", "abc"] none false =
      Except.error (PyError.templateSyntaxError (msgKeyVal "t" "abc")) :=
  C5_amended_token_without_eq_fails "t" none false ["a=1"] [] "abc"
    ⟨[("a", PyVal.str "1")], rfl⟩ (by decide)

/-- C6: when the named validator is a callable and it succeeds on the raw
value, its return value replaces the raw string in the output pair. -/
theorem C6_callable_transform_replaces_value (tag n v : String)
    (f : String → Except String PyVal) (out : PyVal)
    (hn : '=' ∉ n.data) (hv : '=' ∉ v.data)
    (hf : f v = Except.ok out) :
    parse_kw_args tag [n ++ "=" ++ v] (some [(n, Validator.vcallable f)]) false =
      Except.ok [(n, out)] := by
  rw [parse_nonrestrict_some, goBits_cons,
      processBit_callable_ok tag [(n, Validator.vcallable f)] [] n v f out hn hv
        (dictGet_cons_self n (Validator.vcallable f) []) hf]
  dsimp only
  rw [goBits_nil]
  rfl

/-- C6 (witness): with `args_spec = {"x": int}` the token `"x=5"` parses to
exactly `[("x", 5)]`. -/
theorem C6_witness :
    parse_kw_args "t" ["x=5"] (some [("x", Validator.vcallable pyIntV)]) false =
      Except.ok [("x", PyVal.int 5)] :=
  C6_callable_transform_replaces_value "t" "x" "5" pyIntV (PyVal.int 5)
    (by decide) (by decide) rfl

/-- C7: when the named callable validator raises on the raw value, the parse
fails with a syntax error whose message contains both the argument name and
the original exception message (the name lands in the message slot the
source reserves for the tag, but it does appear). -/
theorem C7_callable_failure_wraps_message (tag n v : String)
    (f : String → Except String PyVal) (e : String)
    (hn : '=' ∉ n.data) (hv : '=' ∉ v.data)
    (hf : f v = Except.error e) :
    parse_kw_args tag [n ++ "=" ++ v] (some [(n, Validator.vcallable f)]) false =
      Except.error (PyError.templateSyntaxError (msgInvalid1 tag n v e)) := by
  rw [parse_nonrestrict_some, goBits_cons,
      processBit_callable_err tag [(n, Validator.vcallable f)] [] n v f e hn hv
        (dictGet_cons_self n (Validator.vcallable f) []) hf]
  rfl

/-- C7 (witness): with `args_spec = {"x": int}` the token `"x=abc"` fails
with a syntax error mentioning `"x"` and the original `int` failure. -/
theorem C7_witness :
    parse_kw_args "t" ["x=abc"] (some [("x", Validator.vcallable pyIntV)]) false =
      Except.error (PyError.templateSyntaxError
        (msgInvalid1 "t" "x" "abc"
          "invalid literal for int() with base 10: \x27abc\x27")) :=
  C7_callable_failure_wraps_message "t" "x" "abc" pyIntV
    "invalid literal for int() with base 10: \x27abc\x27"
    (by decide) (by decide) rfl

/-- C8: when the named validator is a pattern, a non-matching raw value
fails with a syntax error quoting the expected pattern, and a matching raw
value is kept unchanged in the output pair. -/
theorem C8_pattern_validator (tag n v reSrc : String) (m : String → Bool)
    (hn : '=' ∉ n.data) (hv : '=' ∉ v.data) :
    (m v = false →
      parse_kw_args tag [n ++ "=" ++ v] (some [(n, Validator.vpattern reSrc m)]) false =
        Except.error (PyError.templateSyntaxError (msgInvalid2 tag n v reSrc))) ∧
    (m v = true →
      parse_kw_args tag [n ++ "=" ++ v] (some [(n, Validator.vpattern reSrc m)]) false =
        Except.ok [(n, PyVal.str v)]) := by
  constructor
  · intro hm
    rw [parse_nonrestrict_some, goBits_cons,
        processBit_pattern_err tag [(n, Validator.vpattern reSrc m)] [] n v reSrc m
          hn hv (dictGet_cons_self n (Validator.vpattern reSrc m) []) hm]
    rfl
  · intro hm
    rw [parse_nonrestrict_some, goBits_cons,
        processBit_pattern_ok tag [(n, Validator.vpattern reSrc m)] [] n v reSrc m
          hn hv (dictGet_cons_self n (Validator.vpattern reSrc m) []) hm]
    dsimp only
    rw [goBits_nil]
    rfl

/-- C8 (witness): against the pattern `"yes"` (matching exactly `"yes"`),
`"x=no"` fails quoting the pattern and `"x=yes"` parses with the raw value
kept. -/
theorem C8_witness :
    parse_kw_args "t" ["x=no"]
        (some [("x", Validator.vpattern "yes" (fun s => s == "yes"))]) false =
      Except.error (PyError.templateSyntaxError (msgInvalid2 "t" "x" "no" "yes")) ∧
    parse_kw_args "t" ["x=yes"]
        (some [("x", Validator.vpattern "yes" (fun s => s == "yes"))]) false =
      Except.ok [("x", PyVal.str "yes")] :=
  ⟨(C8_pattern_validator "t" "x" "no" "yes" (fun s => s == "yes")
      (by decide) (by decide)).1 rfl,
   (C8_pattern_validator "t" "x" "yes" "yes" (fun s => s == "yes")
      (by decide) (by decide)).2 rfl⟩

/-- C9 (counterexample): restrict mode does **not** succeed on every token
list that uses allowed names at most once — a validator can still reject the
value: with `args_spec = {"a": int}` and `restrict=True`, the single token
`"a=x"` uses the allowed name `"a"` once, yet the parse fails. -/
theorem C9_counterexample_validator_rejects :
    parse_kw_args "t" ["a=x"] (some [("a", Validator.vcallable pyIntV)]) true =
      Except.error (PyError.templateSyntaxError
        (msgInvalid1 "t" "a" "x"
          "invalid literal for int() with base 10: \x27x\x27")) := rfl

/-- C9 (amended): restrict mode enforces at-most-once use only, not
exactly-once: with an `args_spec`, any well-formed token list whose
pairwise-distinct names all carry a validator that accepts the supplied
value parses successfully — the allowed names need not all be used — and in
particular the empty token list yields the empty result. -/
theorem C9_amended_restrict_at_most_once (tag : String)
    (sp : List (String × Validator)) (pairs : List (String × String))
    (hnd : (pairs.map Prod.fst).Nodup)
    (hok : ∀ p ∈ pairs, '=' ∉ p.1.data ∧ '=' ∉ p.2.data ∧
      ∃ valr out, dictGet sp p.1 = some valr ∧ valOutput valr p.2 = some out) :
    (∃ res, parse_kw_args tag (pairs.map fun p => p.1 ++ "=" ++ p.2)
      (some sp) true = Except.ok res) ∧
    parse_kw_args tag [] (some sp) true = Except.ok [] := by
  constructor
  · have hmem : ∀ p ∈ pairs, p.1 ∈ sp.map Prod.fst := by
      intro p hp
      obtain ⟨_, _, valr, out, hl, _⟩ := hok p hp
      exact dictGet_some_mem sp p.1 valr hl
    obtain ⟨alF, res, hgo⟩ :=
      goBits_restrict_ok tag sp pairs (sp.map Prod.fst) hnd hmem hok
    exact ⟨res, by rw [parse_restrict_some, hgo, exceptMap_ok]⟩
  · rfl

/-- C9 (witness): with allowed names `{"a", "b"}`, the token list `["b=2"]`
uses a strict subset once and parses, and the empty list yields `[]`. -/
theorem C9_amended_witness :
    (∃ res, parse_kw_args "t" ["b=2"]
      (some [("a", Validator.vnone), ("b", Validator.vnone)]) true =
        Except.ok res) ∧
    parse_kw_args "t" []
      (some [("a", Validator.vnone), ("b", Validator.vnone)]) true =
        Except.ok [] := by
  have hok : ∀ p ∈ [(("b" : String), ("2" : String))],
      '=' ∉ p.1.data ∧ '=' ∉ p.2.data ∧
      ∃ valr out, dictGet [("a", Validator.vnone), ("b", Validator.vnone)] p.1 =
        some valr ∧ valOutput valr p.2 = some out := by
    intro p hp
    rw [List.mem_singleton] at hp
    subst hp
    exact ⟨by decide, by decide, Validator.vnone, PyVal.str "2", rfl, rfl⟩
  exact C9_amended_restrict_at_most_once "t"
    [("a", Validator.vnone), ("b", Validator.vnone)] [("b", "2")]
    (by decide) hok

/-- C10: with no `args_spec` and `restrict=False`, empty names and empty
values are accepted: the token `"="` parses to `("", "")` and `"x="` parses
to `("x", "")`. -/
theorem C10_empty_name_or_value_accepted :
    parse_kw_args "t" ["="] none false = Except.ok [("", PyVal.str "")] ∧
    parse_kw_args "t" ["x="] none false = Except.ok [("x", PyVal.str "")] :=
  ⟨rfl, rfl⟩
